import Mathlib

/-!
Verification development for the hero attribute-resolution engine of the
shop-titans-simulator repository (src/hero_builder.rs).

Modelling conventions for the shallow embedding:
* Rust `f64` values are modelled by `ℚ`: every constant appearing in the
  source is a finite decimal and every operation used (addition,
  multiplication, `f64::min`) is exact on those inputs, so the rational
  model tracks the formula structure the claims are about.
* Rust `u8`/`u16` counters are modelled by `ℕ`; where the source performs
  `u8` arithmetic that can wrap (the `hp_seeds * 4` term, under release
  semantics) the wrap is made explicit with `% 256`.
* Rust `panic!`, `unwrap` on a failed lookup/parse, and out-of-bounds
  indexing are modelled by `Option`: a function returns `none` exactly when
  the source aborts.
* `HashMap<String, T>` lookup tables are modelled by association lists
  `List (String × T)`; `calculate_innate_tier` iterates over map values,
  which is modelled by iterating over a `List InnateSkill`.
* The types `Blueprint`, `HeroSkill` and `InnateSkill` live in source files
  of the repository that only expose getters to hero_builder.rs; they are
  modelled as records with one field per getter used by hero_builder.rs
  (get_type, get_atk, …), per the data-model section of the design document.
* The semantics below are those of a release build: unsigned overflow
  wraps.  Where a claim's verdict depends on overflow this is noted next to
  the theorem; in a debug build the same inputs abort instead of wrapping,
  which diverges from the claims in question the same way.
-/

namespace ShopTitans

/-- Splits a character list at every occurrence of the separator, keeping
empty pieces, mirroring Rust `str::split` with a one-character pattern. -/
def splitCharsOn (sep : Char) : List Char → List (List Char)
  | [] => [[]]
  | c :: cs =>
    if c = sep then [] :: splitCharsOn sep cs
    else
      match splitCharsOn sep cs with
      | [] => [[c]]
      | w :: ws => (c :: w) :: ws

/-- Rust `element_string.split(" ")` as used by calculate_element_qty. -/
def splitOnSpace (s : String) : List String :=
  (splitCharsOn ' ' s.data).map (fun cs => String.mk cs)

/-- Splits a character list at whitespace, keeping empty pieces (they are
filtered away by splitWhitespaceStr below). -/
def splitCharsWS : List Char → List (List Char)
  | [] => [[]]
  | c :: cs =>
    if c.isWhitespace then [] :: splitCharsWS cs
    else
      match splitCharsWS cs with
      | [] => [[c]]
      | w :: ws => (c :: w) :: ws

/-- Rust `str::split_whitespace().collect::<Vec<_>>()` as used by the gear
loop: maximal non-whitespace tokens, no empty tokens. -/
def splitWhitespaceStr (s : String) : List String :=
  ((splitCharsWS s.data).filter (fun w => ¬w.isEmpty)).map (fun cs => String.mk cs)

/-- Accumulates decimal digits; fails on the first non-digit character. -/
def parseNatDigitsAux : List Char → ℕ → Option ℕ
  | [], acc => some acc
  | c :: cs, acc =>
    if c.isDigit then parseNatDigitsAux cs (10 * acc + (c.toNat - 48)) else none

/-- Rust `str::parse::<u8>()` on the decimal-digit forms that occur in the
data: a non-empty all-digit string with value at most 255.  (The exotic
leading `+` sign form accepted by Rust is not modelled; every caller feeds
the parsed value into a match that only accepts 1–4, so this corner cannot
change any result settled below.) -/
def parseU8 (s : String) : Option ℕ :=
  if s.data.isEmpty then none
  else
    match parseNatDigitsAux s.data 0 with
    | none => none
    | some n => if n ≤ 255 then some n else none

/-- Association-list reading of a `HashMap<String, T>`: Rust `map[key]` /
`map.get(key)`, `none` when absent (the source panics there). -/
def lookupMap {α : Type} (m : List (String × α)) (k : String) : Option α :=
  (m.find? (fun p => p.1 == k)).map (fun p => p.2)

/-- All-or-nothing effectful map over a list, mirroring a Rust loop whose
body can panic: `none` as soon as one element fails. -/
def mapOpt {α β : Type} (f : α → Option β) : List α → Option (List β)
  | [] => some []
  | a :: as =>
    match f a, mapOpt f as with
    | some b, some bs => some (b :: bs)
    | _, _ => none

/-- Fold over a list in the `Option` monad, mirroring a Rust accumulation
loop whose body can panic. -/
def foldlOpt {α β : Type} (f : β → α → Option β) : β → List α → Option β
  | b, [] => some b
  | b, a :: as =>
    match f b a with
    | some b' => foldlOpt f b' as
    | none => none

/-- Static item definition, one field per getter hero_builder.rs calls on
`equipment::Blueprint` (get_type, get_atk, get_def, get_hp, get_eva,
get_crit, get_elemental_affinity, get_spirit_affinity). -/
structure Blueprint where
  itype : String
  atk : ℚ
  def_ : ℚ
  hp : ℚ
  eva : ℚ
  crit : ℚ
  elemental_affinity : String
  spirit_affinity : String
deriving DecidableEq

/-- Static skill definition, one field per getter hero_builder.rs calls on
`skills::HeroSkill`. -/
structure HeroSkill where
  attack_percent : ℚ
  attack_value : ℚ
  hp_percent : ℚ
  hp_value : ℚ
  defense_percent : ℚ
  evasion_percent : ℚ
  crit_chance_percent : ℚ
  crit_damage_percent : ℚ
  rest_time_percent : ℚ
  xp_percent : ℚ
  survive_fatal_blow_chance_percent : ℚ
  bonus_stats_from_all_equipment_percent : ℚ
  attack_with_item_percent : ℚ
  defense_with_item_percent : ℚ
  item_types : List String
deriving DecidableEq

/-- Static innate-skill definition, one field per getter hero_builder.rs
calls on `skills::InnateSkill` (get_tier_1_name, get_element_qty_req,
get_skill_tier). -/
structure InnateSkill where
  tier_1_name : String
  element_qty_req : ℕ
  skill_tier : ℕ
deriving DecidableEq

/-- The Hero struct of hero_builder.rs.  The fields `class` and `def` of
the source are Lean keywords and are rendered `class_name` and `def_`. -/
structure Hero where
  identifier : String
  class_name : String
  level : ℕ
  rank : ℕ
  innate_tier : ℕ
  hp : ℚ
  atk : ℚ
  def_ : ℚ
  eva : ℚ
  crit_chance : ℚ
  crit_mult : ℚ
  threat_rating : ℕ
  element_type : String
  atk_modifier : ℚ
  def_modifier : ℚ
  hp_seeds : ℕ
  atk_seeds : ℕ
  def_seeds : ℕ
  skills : List String
  equipment_equipped : List String
  equipment_quality : List String
  elements_socketed : List String
  spirits_socketed : List String
deriving DecidableEq

/-- Grade-to-points table of calculate_element_qty's inner match; `none`
for the `_ => panic!("Unknown element grade ...")` arm. -/
def gradePoints : String → Option ℕ
  | "1" => some 5
  | "2" => some 10
  | "3" => some 15
  | "4" => some 25
  | _ => none

/-- One iteration of the calculate_element_qty loop: split the descriptor
on single spaces, abort when fewer than 2 pieces, and add the grade points
only when the descriptor's element equals the hero's element type.  Note
that the grade is only inspected (and can only abort) inside the
element-match branch, exactly as in the source. -/
def elementStep (element_type : String) (acc : ℕ) (element_string : String) : Option ℕ :=
  match splitOnSpace element_string with
  | element :: grade :: _ =>
    if element = element_type then
      match gradePoints grade with
      | some p => some (acc + p)
      | none => none
    else
      some acc
  | _ => none

/-- Hero::calculate_element_qty. -/
def Hero.calculate_element_qty (h : Hero) : Option ℕ :=
  foldlOpt (elementStep h.element_type) 0 h.elements_socketed

/-- Hero::calculate_spirit_qty: counts socketed spirits equal to the given
name; `u8::try_from(count).unwrap_or_default()` yields the count itself
when it fits in a u8 and the `u8` default 0 otherwise. -/
def Hero.calculate_spirit_qty (h : Hero) (spirit_name : String) : ℕ :=
  let count := (h.spirits_socketed.filter (fun x => x == spirit_name)).length
  if count ≤ 255 then count else 0

/-- Hero::calculate_innate_skill_name: the class-to-innate-family map
lookup, `none` when the class is absent (the source panics). -/
def Hero.calculate_innate_skill_name
    (h : Hero) (class_innate_skill_names_map : List (String × String)) : Option String :=
  lookupMap class_innate_skill_names_map h.class_name

/-- The filter of calculate_innate_tier: innate-skill variants whose tier-1
family name equals the hero's innate family and whose element-quantity
requirement is strictly below the hero's element quantity. -/
def qualifyingVariants (innate_skill_map : List InnateSkill) (family : String) (qty : ℕ) :
    List InnateSkill :=
  innate_skill_map.filter (fun is => is.tier_1_name == family && decide (is.element_qty_req < qty))

/-- Value of the last element of a list sorted ascending by itself: its
maximum.  The source sorts the variants ascending by skill tier and indexes
the last element, so the selected tier is the maximum tier present; on the
empty list the source's `v[v.len() - 1]` aborts, modelled by `none`. -/
def maxOfList : List ℕ → Option ℕ
  | [] => none
  | t :: ts => some (ts.foldl max t)

/-- Hero::calculate_innate_tier. -/
def Hero.calculate_innate_tier
    (h : Hero) (class_innate_skill_names_map : List (String × String))
    (innate_skill_map : List InnateSkill) : Option Hero :=
  match h.calculate_element_qty with
  | none => none
  | some element_qty =>
    match h.calculate_innate_skill_name class_innate_skill_names_map with
    | none => none
    | some innate_skill =>
      match maxOfList ((qualifyingVariants innate_skill_map innate_skill element_qty).map
          (fun is => is.skill_tier)) with
      | none => none
      | some t => some { h with innate_tier := t }

/-- Quality-to-multiplier table of the gear loop; `none` for the
`_ => panic!("Unknown gear_quality ...")` arm. -/
def qualityBonus : String → Option ℚ
  | "Normal" => some 1.0
  | "Superior" => some 1.25
  | "Flawless" => some 1.5
  | "Epic" => some 2.0
  | "Legendary" => some 3.0
  | _ => none

/-- Flat (attack, defense, hp) bonus of a socketed element descriptor on a
given item: tier parsed from the second whitespace token, tier table with
the "Luxurious 1" and "Opulent 3" exceptional variants, then the whole
triple scaled by 1.5 when the item's elemental affinity equals the
descriptor's first token.  `none` models the source's panics on a missing
second token, an unparsable tier, or a tier outside 1–4. -/
def elementTriple (bp : Blueprint) (gear_element : String) : Option (ℚ × ℚ × ℚ) :=
  let parts := splitWhitespaceStr gear_element
  match parts.get? 1 with
  | none => none
  | some tierStr =>
    match parseU8 tierStr with
    | none => none
    | some tier =>
      let base : Option (ℚ × ℚ × ℚ) :=
        match tier with
        | 1 => some (if gear_element = "Luxurious 1" then ((26 : ℚ), 18, 5) else (14, 10, 3))
        | 2 => some ((38 : ℚ), 25, 8)
        | 3 => some (if gear_element = "Opulent 3" then ((63 : ℚ), 42, 13) else (48, 32, 10))
        | 4 => some ((89 : ℚ), 59, 18)
        | _ => none
      match base, parts.get? 0 with
      | some b, some e0 =>
        some (if bp.elemental_affinity = e0 then (b.1 * 1.5, b.2.1 * 1.5, b.2.2 * 1.5) else b)
      | _, _ => none

/-- First whitespace token of a socketed spirit descriptor (the spirit
name); `none` when there is no token, where the source's index aborts. -/
def spiritNameOf (gear_spirit : String) : Option String :=
  (splitWhitespaceStr gear_spirit).get? 0

/-- Tier-code-to-flat-triple table for spirit sockets; `none` for the
`_ => panic!("Unknown gear_spirit_tier ...")` arm. -/
def spiritTierTriple : String → Option (ℚ × ℚ × ℚ)
  | "T4" => some ((16 : ℚ), 11, 3)
  | "T5" => some ((26 : ℚ), 18, 5)
  | "T7" => some ((41 : ℚ), 27, 8)
  | "T9" => some ((48 : ℚ), 32, 10)
  | "TM" => some ((50 : ℚ), 33, 10)
  | "T11" => some ((63 : ℚ), 42, 13)
  | "T12" => some ((89 : ℚ), 59, 18)
  | _ => none

/-- Flat (attack, defense, hp) bonus of a socketed spirit descriptor on a
given item: tier triple from the second whitespace token, scaled by 1.5
when the item's spirit affinity equals the spirit's name (first token). -/
def spiritTriple (bp : Blueprint) (gear_spirit : String) : Option (ℚ × ℚ × ℚ) :=
  match spiritNameOf gear_spirit with
  | none => none
  | some name =>
    match (splitWhitespaceStr gear_spirit).get? 1 with
    | none => none
    | some tierStr =>
      match spiritTierTriple tierStr with
      | none => none
      | some b =>
        some (if bp.spirit_affinity = name then (b.1 * 1.5, b.2.1 * 1.5, b.2.2 * 1.5) else b)

/-- The hero-wide spirit special-effect accumulators of the gear loop
(`spirit_bonus_*` locals), initialised to zero before the loop. -/
structure SpiritState where
  atk_value : ℚ := 0
  atk_percent : ℚ := 0
  def_value : ℚ := 0
  def_percent : ℚ := 0
  hp_value : ℚ := 0
  hp_percent : ℚ := 0
  eva_percent : ℚ := 0
  crit_dmg_percent : ℚ := 0
  crit_chance_percent : ℚ := 0
deriving DecidableEq

/-- The spirit-name-specific special effect of one slot.  Each recognised
name ASSIGNS (does not add to) the named accumulators, at the higher
magnitude when the item's spirit affinity matches the name; unrecognised
names leave the state unchanged.  These are plain assignments in the
source, so across slots the last writer wins. -/
def applySpirit (name : String) (affinity_match : Bool) (st : SpiritState) : SpiritState :=
  match name with
  | "Wolf" => { st with atk_percent := if affinity_match then 0.1 else 0.05 }
  | "Ram" => { st with def_percent := if affinity_match then 0.1 else 0.05 }
  | "Eagle" => { st with crit_chance_percent := if affinity_match then 0.03 else 0.02 }
  | "Ox" => { st with hp_percent := if affinity_match then 0.05 else 0.03 }
  | "Viper" => { st with crit_dmg_percent := if affinity_match then 0.2 else 0.15 }
  | "Cat" => { st with eva_percent := if affinity_match then 0.03 else 0.02 }
  | "Bear" =>
    { st with atk_percent := if affinity_match then 0.07 else 0.05,
              hp_value := if affinity_match then 20.0 else 15.0 }
  | "Walrus" => { st with hp_percent := if affinity_match then 0.08 else 0.05 }
  | "Mammoth" => { st with def_percent := if affinity_match then 0.13 else 0.1 }
  | "Lion" =>
    { st with atk_percent := if affinity_match then 0.07 else 0.05,
              eva_percent := if affinity_match then 0.02 else 0.01 }
  | "Tiger" =>
    { st with def_percent := if affinity_match then 0.07 else 0.05,
              eva_percent := if affinity_match then 0.02 else 0.01 }
  | "Phoenix" => { st with hp_percent := if affinity_match then 0.05 else 0.04 }
  | "Hydra" =>
    { st with def_value := if affinity_match then 125.0 else 100.0,
              hp_value := if affinity_match then 35.0 else 25.0 }
  | "Tarrasque" => { st with def_percent := if affinity_match then 0.25 else 0.2 }
  | "Carbuncle" =>
    { st with crit_chance_percent := if affinity_match then 0.03 else 0.02,
              eva_percent := if affinity_match then 0.03 else 0.02 }
  | "Chimera" =>
    { st with atk_percent := if affinity_match then 0.15 else 0.1,
              crit_dmg_percent := if affinity_match then 0.15 else 0.1 }
  | "Kraken" =>
    { st with atk_value := if affinity_match then 125.0 else 100.0,
              atk_percent := if affinity_match then 0.15 else 0.1 }
  | _ => st

/-- Sum over the hero's resolved skills of the all-equipment percent bonus
(`bonus_item_all_stats_percent` of one slot iteration; it does not depend
on the slot). -/
def bonusItemAllStats (skills : List HeroSkill) : ℚ :=
  (skills.map (fun sk => sk.bonus_stats_from_all_equipment_percent)).sum

/-- Sum over the hero's resolved skills of the attack-with-item percent,
counted once per occurrence of the item's type in the skill's item-type
list, mirroring the inner `for itype in skill.get_item_types()` loop. -/
def bonusItemAtkPercent (skills : List HeroSkill) (bp : Blueprint) : ℚ :=
  (skills.map (fun sk =>
    (((sk.item_types.filter (fun t => t == bp.itype)).length : ℚ) * sk.attack_with_item_percent))).sum

/-- Defense counterpart of bonusItemAtkPercent. -/
def bonusItemDefPercent (skills : List HeroSkill) (bp : Blueprint) : ℚ :=
  (skills.map (fun sk =>
    (((sk.item_types.filter (fun t => t == bp.itype)).length : ℚ) * sk.defense_with_item_percent))).sum

/-- Everything one slot of the gear loop contributes: the five additive
increments to the running gear totals, plus the spirit name and
affinity-match flag that drive the slot's special-effect assignment.  The
slot body never reads the running totals, so this is a pure per-slot
value. -/
structure SlotOut where
  dAtk : ℚ
  dDef : ℚ
  dHp : ℚ
  dEva : ℚ
  dCrit : ℚ
  spiritName : String
  affinityMatch : Bool
deriving DecidableEq

/-- One slot of the gear loop: quality multiplier, element and spirit flat
triples (each capped by `f64::min` at the item's own base stat per
dimension), and the skill-granted item percents, combined exactly as in
the `item_attack_final` / `item_defense_final` / `item_hp_final`
expressions of the source. -/
def slotOut (skills : List HeroSkill) (bp : Blueprint)
    (gear_quality gear_element gear_spirit : String) : Option SlotOut :=
  match qualityBonus gear_quality with
  | none => none
  | some q =>
    match elementTriple bp gear_element with
    | none => none
    | some e =>
      match spiritNameOf gear_spirit with
      | none => none
      | some name =>
        match spiritTriple bp gear_spirit with
        | none => none
        | some s =>
          let allPct := bonusItemAllStats skills
          let atkPct := bonusItemAtkPercent skills bp
          let defPct := bonusItemDefPercent skills bp
          some
            { dAtk := (bp.atk * q + min e.1 bp.atk + min s.1 bp.atk) * (1 + atkPct + allPct)
              dDef := (bp.def_ * q + min e.2.1 bp.def_ + min s.2.1 bp.def_) * (1 + defPct + allPct)
              dHp := (bp.hp * q + min e.2.2 bp.hp + min s.2.2 bp.hp) * (1 + allPct)
              dEva := bp.eva * (1 + allPct)
              dCrit := bp.crit * (1 + allPct)
              spiritName := name
              affinityMatch := bp.spirit_affinity == name }

/-- The gear-loop accumulators that survive to the attack calculation: the
five summed gear totals and the spirit special-effect state. -/
structure GearState where
  bonus_atk_value : ℚ
  bonus_def_value : ℚ
  bonus_hp_value : ℚ
  bonus_eva_percent : ℚ
  bonus_crit_chance_percent : ℚ
  spirit : SpiritState
deriving DecidableEq

/-- One slot of the gear loop as consumed by gearLoop: the slot is the
blueprint together with its slot-aligned quality, element and spirit
descriptors. -/
def slotOutOf (skills : List HeroSkill) (slot : Blueprint × String × String × String) :
    Option SlotOut :=
  slotOut skills slot.1 slot.2.1 slot.2.2.1 slot.2.2.2

/-- The whole gear loop: each slot is resolved independently (the body
never reads the accumulators), the five totals are the sums of the per-slot
increments, and the spirit special-effect state is the left-to-right fold
of the per-slot assignments over the zero initial state. -/
def gearLoop (skills : List HeroSkill) (slots : List (Blueprint × String × String × String)) :
    Option GearState :=
  match mapOpt (slotOutOf skills) slots with
  | none => none
  | some outs =>
    some
      { bonus_atk_value := (outs.map (fun o => o.dAtk)).sum
        bonus_def_value := (outs.map (fun o => o.dDef)).sum
        bonus_hp_value := (outs.map (fun o => o.dHp)).sum
        bonus_eva_percent := (outs.map (fun o => o.dEva)).sum
        bonus_crit_chance_percent := (outs.map (fun o => o.dCrit)).sum
        spirit := outs.foldl (fun st o => applySpirit o.spiritName o.affinityMatch st) {} }

/-- The hero-wide skill sums (`skill_bonus_*` locals). -/
structure SkillTotals where
  atk_percent : ℚ
  atk_value : ℚ
  hp_percent : ℚ
  hp_value : ℚ
  def_percent : ℚ
  eva_percent : ℚ
  crit_chance_percent : ℚ
  crit_damage_percent : ℚ
  rest_time_percent : ℚ
  xp_percent_percent : ℚ
  survive_fatal_blow_chance_percent : ℚ
deriving DecidableEq

/-- The hero-wide skill aggregation loop over the resolved skills. -/
def skillTotals (skills : List HeroSkill) : SkillTotals :=
  { atk_percent := (skills.map (fun sk => sk.attack_percent)).sum
    atk_value := (skills.map (fun sk => sk.attack_value)).sum
    hp_percent := (skills.map (fun sk => sk.hp_percent)).sum
    hp_value := (skills.map (fun sk => sk.hp_value)).sum
    def_percent := (skills.map (fun sk => sk.defense_percent)).sum
    eva_percent := (skills.map (fun sk => sk.evasion_percent)).sum
    crit_chance_percent := (skills.map (fun sk => sk.crit_chance_percent)).sum
    crit_damage_percent := (skills.map (fun sk => sk.crit_damage_percent)).sum
    rest_time_percent := (skills.map (fun sk => sk.rest_time_percent)).sum
    xp_percent_percent := (skills.map (fun sk => sk.xp_percent)).sum
    survive_fatal_blow_chance_percent :=
      (skills.map (fun sk => sk.survive_fatal_blow_chance_percent)).sum }

/-- The `geo_astramancer_element_qty_or_chieftain_threat_bonus` match: the
raw element quantity (as an f64) for Geomancer and Astramancer, 0.4 times
the threat rating for Chieftain, and zero otherwise.  For the two mancer
classes the source re-runs calculate_element_qty, which can abort. -/
def classBonus (h : Hero) : Option ℚ :=
  if h.class_name = "Geomancer" then
    match h.calculate_element_qty with
    | none => none
    | some q => some (q : ℚ)
  else if h.class_name = "Astramancer" then
    match h.calculate_element_qty with
    | none => none
    | some q => some (q : ℚ)
  else if h.class_name = "Chieftain" then some (0.4 * (h.threat_rating : ℚ))
  else some 0

/-- The per-slot data of a hero once its blueprints are resolved: the
blueprint list zipped with the three slot-aligned descriptor arrays. -/
def mkSlots (h : Hero) (bps : List Blueprint) : List (Blueprint × String × String × String) :=
  bps.zip (h.equipment_quality.zip (h.elements_socketed.zip h.spirits_socketed))

/-- Hero::calculate_stat_improvements_from_gear_and_skills.  The source
resolves blueprints first, re-resolves the skills inside the gear loop and
again in the skill loop (same lookups, same panic condition, resolved once
here), runs the gear loop, the skill sums and the class-conditional bonus,
and finally writes the new attack and attack modifier.  The seed term
`f64::from(self.hp_seeds * 4)` is u8 arithmetic: under release semantics
the product wraps modulo 256, made explicit below (a debug build aborts on
the same inputs instead).  The two innate-skill map parameters of the
source are never read in the body and are kept for signature fidelity. -/
def Hero.calculate_stat_improvements_from_gear_and_skills
    (h : Hero) (bp_map : List (String × Blueprint)) (hero_skill_map : List (String × HeroSkill))
    (class_innate_skill_names_map : List (String × String))
    (innate_skill_map : List InnateSkill) : Option Hero :=
  match mapOpt (lookupMap bp_map) h.equipment_equipped with
  | none => none
  | some blueprints =>
    match mapOpt (lookupMap hero_skill_map) h.skills with
    | none => none
    | some skills =>
      match gearLoop skills (mkSlots h blueprints) with
      | none => none
      | some gs =>
        match classBonus h with
        | none => none
        | some geo_astramancer_element_qty_or_chieftain_threat_bonus =>
          let st := skillTotals skills
          let base_atk := h.atk
          let seeded_atk := base_atk + (((h.hp_seeds * 4) % 256 : ℕ) : ℚ)
          let summarized_base_atk_value := seeded_atk + gs.spirit.atk_value + st.atk_value
          let summarized_atk_percent_modifier := 1 + st.atk_percent
            + geo_astramancer_element_qty_or_chieftain_threat_bonus + gs.spirit.atk_percent
          let modified_atk_value := summarized_base_atk_value * summarized_atk_percent_modifier
          let modified_atk_bonus := gs.bonus_atk_value * summarized_atk_percent_modifier
          let new_atk := modified_atk_value + modified_atk_bonus
          let new_atk_mod := st.atk_percent
            + geo_astramancer_element_qty_or_chieftain_threat_bonus + gs.spirit.atk_percent
          some { h with atk := new_atk, atk_modifier := new_atk_mod }

/-- Pure per-descriptor contribution to the element quantity, used to state
what the accumulation loop computes on well-formed descriptors. -/
def elementContribution (element_type : String) (d : String) : ℕ :=
  match splitOnSpace d with
  | element :: grade :: _ => if element = element_type then (gradePoints grade).getD 0 else 0
  | _ => 0

/-- A socketed-element descriptor of the shape demanded by the design
document: exactly an element followed by a grade in 1–4. -/
def wellFormedElement (d : String) : Bool :=
  match splitOnSpace d with
  | [_, grade] => (gradePoints grade).isSome
  | _ => false

/-- The exact success condition of one calculate_element_qty iteration:
at least two space-separated pieces, and a recognised grade whenever the
element matches the hero's alignment. -/
def elementStepOK (element_type : String) (d : String) : Bool :=
  match splitOnSpace d with
  | element :: grade :: _ => (!(element == element_type)) || (gradePoints grade).isSome
  | _ => false

theorem elementStep_isSome (element_type : String) (acc : ℕ) (d : String) :
    (elementStep element_type acc d).isSome = elementStepOK element_type d := by
  unfold elementStep elementStepOK
  rcases hsp : splitOnSpace d with _ | ⟨e, _ | ⟨g, rest⟩⟩ <;> simp only [hsp]
  · rfl
  · rfl
  · by_cases he : e = element_type
    · subst he
      cases hg : gradePoints g <;> simp [hg]
    · simp [he, beq_eq_false_iff_ne.mpr he]

theorem foldlOpt_elementStep_isSome (element_type : String) (l : List String) :
    ∀ acc : ℕ, (foldlOpt (elementStep element_type) acc l).isSome = true ↔
      ∀ d ∈ l, elementStepOK element_type d = true := by
  induction l with
  | nil => intro acc; simp [foldlOpt]
  | cons d ds ih =>
    intro acc
    unfold foldlOpt
    cases hstep : elementStep element_type acc d with
    | none =>
      have : elementStepOK element_type d = false := by
        rw [← elementStep_isSome element_type acc d, hstep]; rfl
      simp [this]
    | some acc' =>
      have hok : elementStepOK element_type d = true := by
        rw [← elementStep_isSome element_type acc d, hstep]; rfl
      simp only [ih acc']
      constructor
      · intro hall
        intro x hx
        rcases List.mem_cons.mp hx with rfl | hx
        · exact hok
        · exact hall x hx
      · intro hall x hx
        exact hall x (List.mem_cons_of_mem d hx)

theorem elementStep_eq_of_wf (element_type : String) (acc : ℕ) (d : String)
    (hd : wellFormedElement d = true) :
    elementStep element_type acc d = some (acc + elementContribution element_type d) := by
  unfold wellFormedElement at hd
  unfold elementStep elementContribution
  rcases hsp : splitOnSpace d with _ | ⟨e, _ | ⟨g, _ | ⟨x, rest⟩⟩⟩ <;> rw [hsp] at hd <;>
    simp only [hsp] <;> simp only [] at hd
  · cases hd
  · cases hd
  · obtain ⟨p, hp⟩ := Option.isSome_iff_exists.mp hd
    by_cases he : e = element_type
    · simp [he, hp]
    · simp [he]
  · cases hd

theorem foldlOpt_elementStep_sum (element_type : String) :
    ∀ l : List String, (∀ d ∈ l, wellFormedElement d = true) → ∀ acc : ℕ,
      foldlOpt (elementStep element_type) acc l =
        some (acc + (l.map (elementContribution element_type)).sum) := by
  intro l
  induction l with
  | nil => intro _ acc; simp [foldlOpt]
  | cons d ds ih =>
    intro hwf acc
    have hd : wellFormedElement d = true := hwf d (List.mem_cons_self d ds)
    have hds : ∀ x ∈ ds, wellFormedElement x = true :=
      fun x hx => hwf x (List.mem_cons_of_mem d hx)
    simp only [foldlOpt, elementStep_eq_of_wf element_type acc d hd, ih hds,
      List.map_cons, List.sum_cons]
    congr 1
    omega

/-- Membership fact for the running maximum of a fold. -/
theorem foldl_max_mem (ts : List ℕ) (t : ℕ) : ts.foldl max t = t ∨ ts.foldl max t ∈ ts := by
  induction ts generalizing t with
  | nil => exact Or.inl rfl
  | cons a as ih =>
    rw [List.foldl_cons]
    rcases ih (max t a) with h | h
    · rcases max_choice t a with hm | hm
      · exact Or.inl (by rw [h, hm])
      · exact Or.inr (by rw [h, hm]; exact List.mem_cons_self a as)
    · exact Or.inr (List.mem_cons_of_mem a h)

/-- Upper-bound fact for the running maximum of a fold. -/
theorem le_foldl_max (ts : List ℕ) (t : ℕ) :
    t ≤ ts.foldl max t ∧ ∀ x ∈ ts, x ≤ ts.foldl max t := by
  induction ts generalizing t with
  | nil => exact ⟨le_refl t, by simp⟩
  | cons a as ih =>
    rw [List.foldl_cons]
    obtain ⟨h1, h2⟩ := ih (max t a)
    refine ⟨le_trans (le_max_left t a) h1, ?_⟩
    intro x hx
    rcases List.mem_cons.mp hx with rfl | hx
    · exact le_trans (le_max_right t x) h1
    · exact h2 x hx

theorem maxOfList_mem {l : List ℕ} {m : ℕ} (h : maxOfList l = some m) : m ∈ l := by
  cases l with
  | nil => cases h
  | cons t ts =>
    have hm : ts.foldl max t = m := by simpa [maxOfList] using h
    rcases foldl_max_mem ts t with h' | h'
    · rw [← hm, h']; exact List.mem_cons_self t ts
    · rw [← hm]; exact List.mem_cons_of_mem t h'

theorem maxOfList_ge {l : List ℕ} {m : ℕ} (h : maxOfList l = some m) : ∀ x ∈ l, x ≤ m := by
  cases l with
  | nil => cases h
  | cons t ts =>
    have hm : ts.foldl max t = m := by simpa [maxOfList] using h
    intro x hx
    rcases List.mem_cons.mp hx with rfl | hx
    · exact hm ▸ (le_foldl_max ts x).1
    · exact hm ▸ (le_foldl_max ts t).2 x hx

/-! Concrete fixtures used by witnesses and counterexamples. -/

/-- An item blueprint with all-zero base stats and no affinities. -/
def bpStick : Blueprint :=
  { itype := "Sword", atk := 0, def_ := 0, hp := 0, eva := 0, crit := 0,
    elemental_affinity := "None", spirit_affinity := "None" }

/-- A skill contributing nothing. -/
def skNone : HeroSkill :=
  { attack_percent := 0, attack_value := 0, hp_percent := 0, hp_value := 0,
    defense_percent := 0, evasion_percent := 0, crit_chance_percent := 0,
    crit_damage_percent := 0, rest_time_percent := 0, xp_percent := 0,
    survive_fatal_blow_chance_percent := 0, bonus_stats_from_all_equipment_percent := 0,
    attack_with_item_percent := 0, defense_with_item_percent := 0, item_types := [] }

def bpMapFix : List (String × Blueprint) := [("stick", bpStick)]

def skMapFix : List (String × HeroSkill) := [("none", skNone)]

/-- A hero at base attack 10 with all-neutral configuration: zero-stat
items of Normal quality, non-matching element sockets, a spirit with no
special effect, and four no-op skills. -/
def baseHero : Hero :=
  { identifier := "h", class_name := "Archer", level := 1, rank := 0, innate_tier := 0,
    hp := 0, atk := 10, def_ := 0, eva := 0, crit_chance := 0, crit_mult := 0,
    threat_rating := 0, element_type := "Fire", atk_modifier := 0, def_modifier := 0,
    hp_seeds := 5, atk_seeds := 0, def_seeds := 0,
    skills := ["none", "none", "none", "none"],
    equipment_equipped := ["stick", "stick", "stick", "stick", "stick", "stick"],
    equipment_quality := ["Normal", "Normal", "Normal", "Normal", "Normal", "Normal"],
    elements_socketed := ["Water 1", "Water 1", "Water 1", "Water 1", "Water 1", "Water 1"],
    spirits_socketed := ["Armadillo T7", "Armadillo T7", "Armadillo T7", "Armadillo T7",
      "Armadillo T7", "Armadillo T7"] }

/-- Fire-aligned hero with one matching grade-2 socket. -/
def fireHero : Hero :=
  { baseHero with
    elements_socketed := ["Fire 2", "Water 1", "Water 1", "Water 1", "Water 1", "Water 1"] }

/-- Water-aligned hero whose sockets, including a Fire 2, never match. -/
def waterHero : Hero :=
  { baseHero with
    element_type := "Water",
    elements_socketed := ["Fire 2", "Earth 1", "Earth 1", "Earth 1", "Earth 1", "Earth 1"] }

/-- Water-aligned hero carrying a descriptor with an out-of-range grade on
a non-matching element. -/
def c7Hero : Hero :=
  { baseHero with
    element_type := "Water",
    elements_socketed := ["Fire 9", "Water 1", "Water 1", "Water 1", "Water 1", "Water 1"] }

def famMap : List (String × String) := [("Ranger", "Beast Whisperer")]

def innateFix : List InnateSkill :=
  [ { tier_1_name := "Beast Whisperer", element_qty_req := 0, skill_tier := 1 },
    { tier_1_name := "Beast Whisperer", element_qty_req := 5, skill_tier := 2 },
    { tier_1_name := "Beast Whisperer", element_qty_req := 50, skill_tier := 3 },
    { tier_1_name := "Other", element_qty_req := 0, skill_tier := 4 } ]

/-- Ranger hero with element quantity 10. -/
def rangerHero : Hero :=
  { baseHero with
    class_name := "Ranger",
    elements_socketed := ["Fire 2", "Water 1", "Water 1", "Water 1", "Water 1", "Water 1"] }

def rangerHeroT2 : Hero := { rangerHero with innate_tier := 2 }

/-- Ranger hero with element quantity 5. -/
def rangerHero5 : Hero :=
  { rangerHero with
    elements_socketed := ["Fire 1", "Water 1", "Water 1", "Water 1", "Water 1", "Water 1"] }

def rangerHero5T1 : Hero := { rangerHero5 with innate_tier := 1 }

/-! Claim C6. -/

/-- C6: on a hero whose six socketed-element descriptors are well-formed,
calculate_element_qty succeeds and returns the sum over the descriptors of
the grade table 1→5, 2→10, 3→15, 4→25 for descriptors whose element equals
the hero's elemental alignment and 0 for all others. -/
theorem element_qty_sum_of_wellformed (h : Hero)
    (hwf : ∀ d ∈ h.elements_socketed, wellFormedElement d = true) :
    h.calculate_element_qty =
      some ((h.elements_socketed.map (elementContribution h.element_type)).sum) := by
  unfold Hero.calculate_element_qty
  simpa using foldlOpt_elementStep_sum h.element_type h.elements_socketed hwf 0

/-- Witness for C6: the descriptor "Fire 2" contributes 10 on a hero
aligned to Fire and 0 on a hero aligned to Water. -/
theorem element_qty_sum_of_wellformed_witness :
    fireHero.calculate_element_qty = some 10 ∧ waterHero.calculate_element_qty = some 0 := by
  constructor
  · rw [element_qty_sum_of_wellformed fireHero (by decide)]; decide
  · rw [element_qty_sum_of_wellformed waterHero (by decide)]; decide

/-! Claim C7. -/

/-- Counterexample to C7: a hero holding the descriptor "Fire 9" (grade
outside 1–4, hence not well-formed) whose alignment is Water resolves
calculate_element_qty successfully, because the grade table is only
consulted for descriptors whose element matches the alignment. -/
theorem element_qty_accepts_malformed_nonmatching :
    "Fire 9" ∈ c7Hero.elements_socketed ∧ wellFormedElement "Fire 9" = false ∧
      c7Hero.calculate_element_qty = some 25 := by decide

/-- C7 as amended: calculate_element_qty succeeds exactly when every
descriptor splits into at least two pieces and has a recognised grade
whenever its element matches the hero's alignment; a shape violation is
fatal regardless of the element, but an out-of-range grade is fatal only
on a matching element. -/
theorem element_qty_isSome_iff (h : Hero) :
    (h.calculate_element_qty).isSome = true ↔
      ∀ d ∈ h.elements_socketed, elementStepOK h.element_type d = true := by
  unfold Hero.calculate_element_qty
  exact foldlOpt_elementStep_isSome h.element_type h.elements_socketed 0

/-- Witness for the amended C7. -/
theorem element_qty_isSome_iff_witness : (c7Hero.calculate_element_qty).isSome = true :=
  (element_qty_isSome_iff c7Hero).mpr (by decide)

/-! Claim C5. -/

/-- C5: whenever element quantity and innate-family resolution succeed,
a successful calculate_innate_tier assigns the highest tier rank present
among the qualifying innate-skill definitions (family name equal to the
hero's innate family, required quantity strictly below the hero's element
quantity), and the call fails when no definition qualifies. -/
theorem innate_tier_selects_max (h : Hero) (cmap : List (String × String))
    (imap : List InnateSkill) (qty : ℕ) (fam : String)
    (hqty : h.calculate_element_qty = some qty)
    (hfam : h.calculate_innate_skill_name cmap = some fam) :
    (∀ h', h.calculate_innate_tier cmap imap = some h' →
        h'.innate_tier ∈ (qualifyingVariants imap fam qty).map (fun is => is.skill_tier) ∧
        ∀ t ∈ (qualifyingVariants imap fam qty).map (fun is => is.skill_tier),
          t ≤ h'.innate_tier) ∧
    (qualifyingVariants imap fam qty = [] → h.calculate_innate_tier cmap imap = none) := by
  unfold Hero.calculate_innate_tier
  simp only [hqty, hfam]
  constructor
  · intro h' hrun
    cases hmax : maxOfList ((qualifyingVariants imap fam qty).map (fun is => is.skill_tier)) with
    | none => rw [hmax] at hrun; cases hrun
    | some t =>
      rw [hmax] at hrun
      obtain rfl : ({ h with innate_tier := t } : Hero) = h' := Option.some.inj hrun
      exact ⟨maxOfList_mem hmax, maxOfList_ge hmax⟩
  · intro hempty
    rw [hempty]
    rfl

/-- Witness for C5: a Ranger with element quantity 10 receives tier 2, the
highest qualifying tier of the fixture ladder. -/
theorem innate_tier_selects_max_witness :
    rangerHero.calculate_innate_tier famMap innateFix = some rangerHeroT2 ∧
    rangerHeroT2.innate_tier ∈
      (qualifyingVariants innateFix "Beast Whisperer" 10).map (fun is => is.skill_tier) :=
  ⟨rfl,
    ((innate_tier_selects_max rangerHero famMap innateFix 10 "Beast Whisperer" rfl rfl).1
      rangerHeroT2 rfl).1⟩

/-! Claim C9. -/

/-- C9: for a fixed class (hence a fixed innate family) and a fixed
innate-skill table, the tier assigned by calculate_innate_tier is monotone
in the elemental-investment quantity. -/
theorem innate_tier_monotone (h1 h2 : Hero) (cmap : List (String × String))
    (imap : List InnateSkill) (q1 q2 : ℕ) (h1' h2' : Hero)
    (hclass : h1.class_name = h2.class_name)
    (hq1 : h1.calculate_element_qty = some q1)
    (hq2 : h2.calculate_element_qty = some q2)
    (hq : q1 ≤ q2)
    (hr1 : h1.calculate_innate_tier cmap imap = some h1')
    (hr2 : h2.calculate_innate_tier cmap imap = some h2') :
    h1'.innate_tier ≤ h2'.innate_tier := by
  unfold Hero.calculate_innate_tier at hr1 hr2
  unfold Hero.calculate_innate_skill_name at hr1 hr2
  have hlook : lookupMap cmap h1.class_name = lookupMap cmap h2.class_name := by rw [hclass]
  rw [hlook] at hr1
  simp only [hq1] at hr1
  simp only [hq2] at hr2
  cases hfam : lookupMap cmap h2.class_name with
  | none => rw [hfam] at hr1; cases hr1
  | some fam =>
    simp only [hfam] at hr1 hr2
    cases hmax1 : maxOfList ((qualifyingVariants imap fam q1).map (fun is => is.skill_tier)) with
    | none => rw [hmax1] at hr1; cases hr1
    | some t1 =>
      cases hmax2 : maxOfList ((qualifyingVariants imap fam q2).map (fun is => is.skill_tier)) with
      | none => rw [hmax2] at hr2; cases hr2
      | some t2 =>
        simp only [hmax1] at hr1
        simp only [hmax2] at hr2
        obtain rfl : ({ h1 with innate_tier := t1 } : Hero) = h1' := Option.some.inj hr1
        obtain rfl : ({ h2 with innate_tier := t2 } : Hero) = h2' := Option.some.inj hr2
        show t1 ≤ t2
        have hsub : ∀ x ∈ qualifyingVariants imap fam q1, x ∈ qualifyingVariants imap fam q2 := by
          intro x hx
          rw [qualifyingVariants, List.mem_filter] at hx ⊢
          obtain ⟨hmem, hcond⟩ := hx
          simp only [Bool.and_eq_true, decide_eq_true_eq] at hcond ⊢
          exact ⟨hmem, hcond.1, lt_of_lt_of_le hcond.2 hq⟩
        have ht1 : t1 ∈ (qualifyingVariants imap fam q2).map (fun is => is.skill_tier) := by
          obtain ⟨is, his, hv⟩ := List.mem_map.mp (maxOfList_mem hmax1)
          exact List.mem_map.mpr ⟨is, hsub is his, hv⟩
        exact maxOfList_ge hmax2 t1 ht1

/-- Witness for C9: quantity 5 yields tier 1 and quantity 10 yields tier 2
on the fixture ladder. -/
theorem innate_tier_monotone_witness : rangerHero5T1.innate_tier ≤ rangerHeroT2.innate_tier :=
  innate_tier_monotone rangerHero5 rangerHero famMap innateFix 5 10 rangerHero5T1 rangerHeroT2
    rfl rfl rfl (by decide) rfl rfl

/-! Claim C10. -/

/-- C10: calculate_spirit_qty is total and exact: on a hero with the six
spirit sockets of the source type it returns precisely the number of
socketed spirits equal to the requested name (the count always fits the
u8 result, so the degrade-to-zero fallback of the source is never taken). -/
theorem spirit_qty_exact (h : Hero) (spirit_name : String)
    (hlen : h.spirits_socketed.length = 6) :
    h.calculate_spirit_qty spirit_name =
      (h.spirits_socketed.filter (fun x => x == spirit_name)).length ∧
    (h.spirits_socketed.filter (fun x => x == spirit_name)).length ≤ 6 := by
  have hle : (h.spirits_socketed.filter (fun x => x == spirit_name)).length ≤ 6 := by
    calc (h.spirits_socketed.filter (fun x => x == spirit_name)).length
        ≤ h.spirits_socketed.length := List.length_filter_le _ _
      _ = 6 := hlen
  refine ⟨?_, hle⟩
  unfold Hero.calculate_spirit_qty
  simp only []
  rw [if_pos (le_trans hle (by norm_num))]

/-- Witness for C10. -/
theorem spirit_qty_exact_witness : baseHero.calculate_spirit_qty "Armadillo T7" = 6 := by
  rw [(spirit_qty_exact baseHero "Armadillo T7" rfl).1]
  decide

/-! Evaluation lemmas for the neutral baseline hero, shared by several
witnesses below. -/

def sixSticks : List Blueprint := [bpStick, bpStick, bpStick, bpStick, bpStick, bpStick]

def fourNones : List HeroSkill := [skNone, skNone, skNone, skNone]

/-- Gear state with zero totals and untouched spirit accumulators. -/
def gs0 : GearState :=
  { bonus_atk_value := 0, bonus_def_value := 0, bonus_hp_value := 0,
    bonus_eva_percent := 0, bonus_crit_chance_percent := 0, spirit := {} }

/-- The per-slot tuple of the baseline hero. -/
def slotNeutral : Blueprint × String × String × String :=
  (bpStick, "Normal", "Water 1", "Armadillo T7")

/-- The per-slot output of the baseline hero's slots. -/
def slotNeutralOut : SlotOut :=
  { dAtk := 0, dDef := 0, dHp := 0, dEva := 0, dCrit := 0,
    spiritName := "Armadillo", affinityMatch := false }

theorem mapOpt_bps_base :
    mapOpt (lookupMap bpMapFix) baseHero.equipment_equipped = some sixSticks := rfl

theorem mapOpt_skills_base :
    mapOpt (lookupMap skMapFix) baseHero.skills = some fourNones := rfl

theorem mkSlots_base :
    mkSlots baseHero sixSticks =
      [slotNeutral, slotNeutral, slotNeutral, slotNeutral, slotNeutral, slotNeutral] := rfl

theorem qualityBonus_Normal : qualityBonus "Normal" = some 1.0 := rfl

theorem elementTriple_stick_water1 : elementTriple bpStick "Water 1" = some ((14 : ℚ), 10, 3) := rfl

theorem spiritName_armadillo : spiritNameOf "Armadillo T7" = some "Armadillo" := rfl

theorem spiritTriple_stick_armadillo :
    spiritTriple bpStick "Armadillo T7" = some ((41 : ℚ), 27, 8) := rfl

theorem applySpirit_armadillo (st : SpiritState) : applySpirit "Armadillo" false st = st := rfl

theorem bonusItemAllStats_fourNones : bonusItemAllStats fourNones = 0 := by
  norm_num [bonusItemAllStats, fourNones, skNone]

theorem bonusItemAtkPercent_fourNones (bp : Blueprint) : bonusItemAtkPercent fourNones bp = 0 := by
  norm_num [bonusItemAtkPercent, fourNones, skNone]

theorem bonusItemDefPercent_fourNones (bp : Blueprint) : bonusItemDefPercent fourNones bp = 0 := by
  norm_num [bonusItemDefPercent, fourNones, skNone]

theorem slotOut_neutral : slotOutOf fourNones slotNeutral = some slotNeutralOut := by
  simp only [slotOutOf, slotNeutral, slotOut, qualityBonus_Normal, elementTriple_stick_water1,
    spiritName_armadillo, spiritTriple_stick_armadillo]
  norm_num [bonusItemAllStats_fourNones, bonusItemAtkPercent_fourNones,
    bonusItemDefPercent_fourNones, slotNeutralOut, bpStick, min_def,
    show (("None" : String) == "Armadillo") = false from rfl]

theorem gearLoop_base : gearLoop fourNones (mkSlots baseHero sixSticks) = some gs0 := by
  rw [mkSlots_base]
  simp only [gearLoop, mapOpt, slotOut_neutral]
  norm_num [slotNeutralOut, gs0, applySpirit_armadillo]

theorem classBonus_base : classBonus baseHero = some 0 := rfl

/-! Claim C8. -/

/-- C8: in every slot of the gear loop, the flat elemental bonus and the
flat spirit bonus entering the per-item Attack, Defense and HP totals are
each the minimum of the bonus and the item's own base stat, hence never
exceed the base stat in that dimension. -/
theorem slot_caps_at_base (skills : List HeroSkill) (bp : Blueprint)
    (gear_quality gear_element gear_spirit : String) (q : ℚ) (e s : ℚ × ℚ × ℚ) (out : SlotOut)
    (hq : qualityBonus gear_quality = some q)
    (he : elementTriple bp gear_element = some e)
    (hs : spiritTriple bp gear_spirit = some s)
    (hout : slotOut skills bp gear_quality gear_element gear_spirit = some out) :
    out.dAtk = (bp.atk * q + min e.1 bp.atk + min s.1 bp.atk)
        * (1 + bonusItemAtkPercent skills bp + bonusItemAllStats skills) ∧
    out.dDef = (bp.def_ * q + min e.2.1 bp.def_ + min s.2.1 bp.def_)
        * (1 + bonusItemDefPercent skills bp + bonusItemAllStats skills) ∧
    out.dHp = (bp.hp * q + min e.2.2 bp.hp + min s.2.2 bp.hp)
        * (1 + bonusItemAllStats skills) ∧
    min e.1 bp.atk ≤ bp.atk ∧ min s.1 bp.atk ≤ bp.atk ∧
    min e.2.1 bp.def_ ≤ bp.def_ ∧ min s.2.1 bp.def_ ≤ bp.def_ ∧
    min e.2.2 bp.hp ≤ bp.hp ∧ min s.2.2 bp.hp ≤ bp.hp := by
  have hname : ∃ name, spiritNameOf gear_spirit = some name := by
    unfold spiritTriple at hs
    cases hn : spiritNameOf gear_spirit with
    | none => rw [hn] at hs; cases hs
    | some name => exact ⟨name, rfl⟩
  obtain ⟨name, hn⟩ := hname
  unfold slotOut at hout
  simp only [hq, he, hn, hs] at hout
  obtain rfl := Option.some.inj hout
  exact ⟨rfl, rfl, rfl, min_le_right _ _, min_le_right _ _, min_le_right _ _,
    min_le_right _ _, min_le_right _ _, min_le_right _ _⟩

/-- Item blueprint used by the C8 witness. -/
def bp8 : Blueprint :=
  { itype := "Sword", atk := 100, def_ := 50, hp := 20, eva := 0, crit := 0,
    elemental_affinity := "None", spirit_affinity := "None" }

/-- Witness for C8: on a 100/50/20 item, the Fire 2 element triple and the
Wolf T4 spirit triple stay capped at the base stats. -/
theorem slot_caps_at_base_witness :
    min ((38 : ℚ)) bp8.atk ≤ bp8.atk ∧ min ((16 : ℚ)) bp8.atk ≤ bp8.atk := by
  have h := slot_caps_at_base [skNone] bp8 "Normal" "Fire 2" "Wolf T4" 1.0
    ((38 : ℚ), 25, 8) ((16 : ℚ), 11, 3) _ rfl rfl rfl rfl
  exact ⟨h.2.2.2.1, h.2.2.2.2.1⟩

/-- The baseline hero after stat resolution: attack 30 = (10 + 4 × 5) × 1,
attack modifier 0. -/
def baseHeroOut : Hero := { baseHero with atk := 30, atk_modifier := 0 }

theorem calc_base :
    baseHero.calculate_stat_improvements_from_gear_and_skills bpMapFix skMapFix [] []
      = some baseHeroOut := by
  unfold Hero.calculate_stat_improvements_from_gear_and_skills
  simp only [mapOpt_bps_base, mapOpt_skills_base, gearLoop_base, classBonus_base]
  norm_num [skillTotals, fourNones, skNone, gs0, baseHeroOut, Hero.mk.injEq, baseHero]

/-! Claim C3. -/

/-- C3: a successful calculate_stat_improvements_from_gear_and_skills call
changes only the hero's attack and attack-modifier fields; every other
stat, configuration and identity field of the hero is returned unchanged,
even though gear and skill totals for HP, Defense, Evasion and crit chance
are computed internally. -/
theorem stat_improvements_frame (h : Hero) (bp_map : List (String × Blueprint))
    (hero_skill_map : List (String × HeroSkill)) (cmap : List (String × String))
    (imap : List InnateSkill) (h' : Hero)
    (hrun : h.calculate_stat_improvements_from_gear_and_skills bp_map hero_skill_map cmap imap
      = some h') :
    h'.identifier = h.identifier ∧ h'.class_name = h.class_name ∧ h'.level = h.level ∧
    h'.rank = h.rank ∧ h'.innate_tier = h.innate_tier ∧ h'.hp = h.hp ∧ h'.def_ = h.def_ ∧
    h'.eva = h.eva ∧ h'.crit_chance = h.crit_chance ∧ h'.crit_mult = h.crit_mult ∧
    h'.threat_rating = h.threat_rating ∧ h'.element_type = h.element_type ∧
    h'.def_modifier = h.def_modifier ∧ h'.hp_seeds = h.hp_seeds ∧ h'.atk_seeds = h.atk_seeds ∧
    h'.def_seeds = h.def_seeds ∧ h'.skills = h.skills ∧
    h'.equipment_equipped = h.equipment_equipped ∧ h'.equipment_quality = h.equipment_quality ∧
    h'.elements_socketed = h.elements_socketed ∧ h'.spirits_socketed = h.spirits_socketed := by
  unfold Hero.calculate_stat_improvements_from_gear_and_skills at hrun
  cases h1 : mapOpt (lookupMap bp_map) h.equipment_equipped with
  | none => rw [h1] at hrun; exact Option.noConfusion hrun
  | some bps =>
    simp only [h1] at hrun
    cases h2 : mapOpt (lookupMap hero_skill_map) h.skills with
    | none => rw [h2] at hrun; exact Option.noConfusion hrun
    | some skills =>
      simp only [h2] at hrun
      cases h3 : gearLoop skills (mkSlots h bps) with
      | none => rw [h3] at hrun; exact Option.noConfusion hrun
      | some gs =>
        simp only [h3] at hrun
        cases h4 : classBonus h with
        | none => rw [h4] at hrun; exact Option.noConfusion hrun
        | some cb =>
          simp only [h4] at hrun
          obtain rfl := Option.some.inj hrun
          exact ⟨rfl, rfl, rfl, rfl, rfl, rfl, rfl, rfl, rfl, rfl, rfl, rfl, rfl, rfl, rfl,
            rfl, rfl, rfl, rfl, rfl, rfl⟩

/-- Witness for C3 on the baseline hero. -/
theorem stat_improvements_frame_witness :
    baseHeroOut.hp = baseHero.hp ∧ baseHeroOut.hp_seeds = baseHero.hp_seeds ∧
    baseHeroOut.spirits_socketed = baseHero.spirits_socketed := by
  obtain ⟨-, -, -, -, -, h6, -, -, -, -, -, -, -, h14, -, -, -, -, -, -, h21⟩ :=
    stat_improvements_frame baseHero bpMapFix skMapFix [] [] baseHeroOut calc_base
  exact ⟨h6, h14, h21⟩

/-! Claim C1. -/

/-- C1 (amended): whenever resolution succeeds and the seed counter is
small enough that the u8 product hp_seeds * 4 does not wrap (hp_seeds at
most 63), the resolved hero equals the input hero with attack set to
(base + 4 × hp_seeds + spirit flat attack + skill flat attack) × M plus
(gear attack total) × M, where M = 1 + skill attack percent +
class-conditional bonus + spirit attack percent, and with the stored
attack modifier set to M − 1.  The seed term is keyed off hp_seeds, the
HP-seed counter, not atk_seeds. -/
theorem attack_formula (h : Hero) (bp_map : List (String × Blueprint))
    (hero_skill_map : List (String × HeroSkill)) (cmap : List (String × String))
    (imap : List InnateSkill) (bps : List Blueprint) (skills : List HeroSkill)
    (gs : GearState) (cb : ℚ) (h' : Hero)
    (hseeds : h.hp_seeds ≤ 63)
    (hbps : mapOpt (lookupMap bp_map) h.equipment_equipped = some bps)
    (hskills : mapOpt (lookupMap hero_skill_map) h.skills = some skills)
    (hgear : gearLoop skills (mkSlots h bps) = some gs)
    (hcb : classBonus h = some cb)
    (hrun : h.calculate_stat_improvements_from_gear_and_skills bp_map hero_skill_map cmap imap
      = some h') :
    h' = { h with
           atk := (h.atk + 4 * (h.hp_seeds : ℚ) + gs.spirit.atk_value
                 + (skillTotals skills).atk_value)
               * (1 + (skillTotals skills).atk_percent + cb + gs.spirit.atk_percent)
             + gs.bonus_atk_value
               * (1 + (skillTotals skills).atk_percent + cb + gs.spirit.atk_percent),
           atk_modifier :=
             (1 + (skillTotals skills).atk_percent + cb + gs.spirit.atk_percent) - 1 } := by
  unfold Hero.calculate_stat_improvements_from_gear_and_skills at hrun
  simp only [hbps, hskills, hgear, hcb] at hrun
  obtain rfl := Option.some.inj hrun
  have hmod : (h.hp_seeds * 4) % 256 = h.hp_seeds * 4 := Nat.mod_eq_of_lt (by omega)
  simp only [Hero.mk.injEq, hmod, true_and, and_true]
  constructor
  · push_cast
    ring
  · ring

/-- Witness for the amended C1: the baseline hero has 5 HP seeds and no
other bonuses, so its resolved attack is (10 + 4 × 5) × 1 = 30 and its
attack modifier is 0. -/
theorem attack_formula_witness : baseHeroOut.atk = 30 ∧ baseHeroOut.atk_modifier = 0 := by
  have h := attack_formula baseHero bpMapFix skMapFix [] [] sixSticks fourNones gs0 0 baseHeroOut
    (by decide) mapOpt_bps_base mapOpt_skills_base gearLoop_base classBonus_base calc_base
  rw [h]
  constructor <;> norm_num [skillTotals, fourNones, skNone, gs0, baseHero]

/-- Baseline hero with 64 HP seeds: the u8 product 64 * 4 wraps to 0. -/
def overflowHero : Hero := { baseHero with hp_seeds := 64 }

theorem calc_overflow :
    overflowHero.calculate_stat_improvements_from_gear_and_skills bpMapFix skMapFix [] []
      = some { overflowHero with atk := 10, atk_modifier := 0 } := by
  unfold Hero.calculate_stat_improvements_from_gear_and_skills
  simp only [show mapOpt (lookupMap bpMapFix) overflowHero.equipment_equipped = some sixSticks
      from mapOpt_bps_base,
    show mapOpt (lookupMap skMapFix) overflowHero.skills = some fourNones from mapOpt_skills_base,
    show gearLoop fourNones (mkSlots overflowHero sixSticks) = some gs0 from gearLoop_base,
    show classBonus overflowHero = some 0 from rfl]
  norm_num [skillTotals, fourNones, skNone, gs0, Hero.mk.injEq, overflowHero, baseHero]

/-- Counterexample to C1 as stated: with hp_seeds = 64 the u8 product
hp_seeds * 4 wraps to 0 under release semantics (a debug build aborts on
the same input), so the resolved attack of the otherwise-neutral hero is
10, not the (10 + 4 × 64) × 1 = 266 demanded by the unconditional
formula. -/
theorem attack_formula_seed_overflow :
    overflowHero.hp_seeds = 64 ∧
    (overflowHero.calculate_stat_improvements_from_gear_and_skills bpMapFix skMapFix [] []).map
        Hero.atk = some 10 ∧
    ((10 : ℚ) ≠ (overflowHero.atk + 4 * (overflowHero.hp_seeds : ℚ) + 0 + 0) * (1 + 0 + 0 + 0)
      + 0 * (1 + 0 + 0 + 0)) := by
  refine ⟨rfl, ?_, ?_⟩
  · rw [calc_overflow]; rfl
  · norm_num [overflowHero, baseHero]

/-! Claim C2. -/

/-- Geomancer hero with 20 points of elemental investment and no other
bonus source. -/
def geoHero : Hero :=
  { baseHero with
    class_name := "Geomancer",
    hp_seeds := 0,
    elements_socketed := ["Fire 2", "Fire 2", "Water 1", "Water 1", "Water 1", "Water 1"] }

theorem slotOut_fire2 :
    slotOutOf fourNones (bpStick, "Normal", "Fire 2", "Armadillo T7") = some slotNeutralOut := by
  simp only [slotOutOf, slotOut, qualityBonus_Normal,
    show elementTriple bpStick "Fire 2" = some ((38 : ℚ), 25, 8) from rfl,
    spiritName_armadillo, spiritTriple_stick_armadillo]
  norm_num [bonusItemAllStats_fourNones, bonusItemAtkPercent_fourNones,
    bonusItemDefPercent_fourNones, slotNeutralOut, bpStick, min_def,
    show (("None" : String) == "Armadillo") = false from rfl]

theorem gearLoop_geo : gearLoop fourNones (mkSlots geoHero sixSticks) = some gs0 := by
  have hm : mkSlots geoHero sixSticks =
      [(bpStick, "Normal", "Fire 2", "Armadillo T7"), (bpStick, "Normal", "Fire 2", "Armadillo T7"),
       slotNeutral, slotNeutral, slotNeutral, slotNeutral] := rfl
  rw [hm]
  simp only [gearLoop, mapOpt, slotOut_fire2, slotOut_neutral]
  norm_num [slotNeutralOut, gs0, applySpirit_armadillo]

theorem calc_geo :
    geoHero.calculate_stat_improvements_from_gear_and_skills bpMapFix skMapFix [] []
      = some { geoHero with atk := 210, atk_modifier := 20 } := by
  unfold Hero.calculate_stat_improvements_from_gear_and_skills
  simp only [show mapOpt (lookupMap bpMapFix) geoHero.equipment_equipped = some sixSticks
      from mapOpt_bps_base,
    show mapOpt (lookupMap skMapFix) geoHero.skills = some fourNones from mapOpt_skills_base,
    gearLoop_geo,
    show classBonus geoHero = some ((20 : ℕ) : ℚ) from rfl]
  norm_num [skillTotals, fourNones, skNone, gs0, Hero.mk.injEq, geoHero, baseHero]

/-- Counterexample to C2 as stated: a Geomancer with elemental-investment
quantity 20 receives a class-conditional term of 20.0, not the 0.20 the
claim's percent reading demands; with no other bonus source the stored
attack modifier equals the term itself. -/
theorem class_bonus_not_fractional :
    geoHero.calculate_element_qty = some 20 ∧
    (geoHero.calculate_stat_improvements_from_gear_and_skills bpMapFix skMapFix [] []).map
        Hero.atk_modifier = some 20 ∧
    ((20 : ℚ) ≠ 0.20) := by
  refine ⟨rfl, ?_, by norm_num⟩
  rw [calc_geo]; rfl

/-- C2 (amended): the class-conditional term added into the attack percent
multiplier is the raw elemental-investment quantity as a number (20 points
contribute 20.0, which against the multiplier's unit 1 = 100 percent is a
two-thousand-percent boost, not 0.20) for Geomancer and Astramancer; it is
0.4 times the threat rating for Chieftain; it is zero for every other
class; and the stored attack modifier is the sum of the skill attack
percent, this term, and the spirit attack percent. -/
theorem class_bonus_raw_quantity :
    (∀ (h : Hero) (q : ℕ), (h.class_name = "Geomancer" ∨ h.class_name = "Astramancer") →
        h.calculate_element_qty = some q → classBonus h = some (q : ℚ)) ∧
    (∀ h : Hero, h.class_name = "Chieftain" →
        classBonus h = some (0.4 * (h.threat_rating : ℚ))) ∧
    (∀ h : Hero, h.class_name ≠ "Geomancer" → h.class_name ≠ "Astramancer" →
        h.class_name ≠ "Chieftain" → classBonus h = some 0) ∧
    (∀ (h h' : Hero) (bp_map : List (String × Blueprint))
        (hero_skill_map : List (String × HeroSkill)) (cmap : List (String × String))
        (imap : List InnateSkill) (bps : List Blueprint) (skills : List HeroSkill)
        (gs : GearState) (cb : ℚ),
        mapOpt (lookupMap bp_map) h.equipment_equipped = some bps →
        mapOpt (lookupMap hero_skill_map) h.skills = some skills →
        gearLoop skills (mkSlots h bps) = some gs →
        classBonus h = some cb →
        h.calculate_stat_improvements_from_gear_and_skills bp_map hero_skill_map cmap imap
          = some h' →
        h'.atk_modifier = (skillTotals skills).atk_percent + cb + gs.spirit.atk_percent) := by
  refine ⟨?_, ?_, ?_, ?_⟩
  · intro h q hcl hq
    rcases hcl with hcl | hcl <;> simp [classBonus, hcl, hq]
  · intro h hcl
    simp [classBonus, hcl]
  · intro h h1 h2 h3
    simp [classBonus, h1, h2, h3]
  · intro h h' bp_map hero_skill_map cmap imap bps skills gs cb hbps hskills hgear hcb hrun
    unfold Hero.calculate_stat_improvements_from_gear_and_skills at hrun
    simp only [hbps, hskills, hgear, hcb] at hrun
    obtain rfl := Option.some.inj hrun
    rfl

/-- Witness for the amended C2: the Geomancer fixture with quantity 20
receives the raw term 20. -/
theorem class_bonus_raw_quantity_witness : classBonus geoHero = some ((20 : ℕ) : ℚ) :=
  class_bonus_raw_quantity.1 geoHero 20 (Or.inl rfl) rfl

/-! Claim C4. -/

theorem mapOpt_perm {α β : Type} (f : α → Option β) {l l' : List α} (hp : l.Perm l') :
    ∀ ys : List β, mapOpt f l = some ys → ∃ ys', mapOpt f l' = some ys' ∧ ys.Perm ys' := by
  induction hp with
  | nil =>
    intro ys h
    exact ⟨ys, h, List.Perm.refl ys⟩
  | cons x hp ih =>
    rename_i l₁ l₂
    intro ys h
    simp only [mapOpt] at h
    cases hfx : f x with
    | none => rw [hfx] at h; exact Option.noConfusion h
    | some b =>
      rw [hfx] at h
      cases hm : mapOpt f l₁ with
      | none => rw [hm] at h; exact Option.noConfusion h
      | some bs =>
        rw [hm] at h
        obtain rfl := (Option.some.inj h).symm
        obtain ⟨bs', hbs', hperm⟩ := ih bs hm
        refine ⟨b :: bs', ?_, List.Perm.cons b hperm⟩
        simp only [mapOpt, hfx, hbs']
  | swap x y l =>
    intro ys h
    simp only [mapOpt] at h
    cases hfy : f y with
    | none => rw [hfy] at h; exact Option.noConfusion h
    | some b1 =>
      rw [hfy] at h
      cases hfx : f x with
      | none => rw [hfx] at h; exact Option.noConfusion h
      | some b2 =>
        rw [hfx] at h
        cases hm : mapOpt f l with
        | none => rw [hm] at h; exact Option.noConfusion h
        | some bs =>
          rw [hm] at h
          obtain rfl := (Option.some.inj h).symm
          refine ⟨b2 :: b1 :: bs, ?_, List.Perm.swap b2 b1 bs⟩
          simp only [mapOpt, hfx, hfy, hm]
  | trans hp1 hp2 ih1 ih2 =>
    intro ys h
    obtain ⟨ys₁, h1, p1⟩ := ih1 ys h
    obtain ⟨ys₂, h2, p2⟩ := ih2 ys₁ h1
    exact ⟨ys₂, h2, p1.trans p2⟩

/-- C4 (amended): permuting the resolved slots (item together with its
slot-aligned quality, element and spirit descriptors) preserves gear-loop
success and leaves the five summed gear totals unchanged; the spirit
special-effect state, and hence the final attack, may change because those
accumulators are assigned per slot (last writer wins) rather than
summed. -/
theorem gear_totals_perm (skills : List HeroSkill)
    (slots slots' : List (Blueprint × String × String × String))
    (hp : slots.Perm slots') (g : GearState)
    (hg : gearLoop skills slots = some g) :
    ∃ g', gearLoop skills slots' = some g' ∧
      g'.bonus_atk_value = g.bonus_atk_value ∧ g'.bonus_def_value = g.bonus_def_value ∧
      g'.bonus_hp_value = g.bonus_hp_value ∧ g'.bonus_eva_percent = g.bonus_eva_percent ∧
      g'.bonus_crit_chance_percent = g.bonus_crit_chance_percent := by
  unfold gearLoop at hg ⊢
  cases houts : mapOpt (slotOutOf skills) slots with
  | none => rw [houts] at hg; exact Option.noConfusion hg
  | some outs =>
    rw [houts] at hg
    obtain rfl := (Option.some.inj hg).symm
    obtain ⟨outs', houts', hperm⟩ := mapOpt_perm (slotOutOf skills) hp outs houts
    refine ⟨{ bonus_atk_value := (outs'.map (fun o => o.dAtk)).sum,
              bonus_def_value := (outs'.map (fun o => o.dDef)).sum,
              bonus_hp_value := (outs'.map (fun o => o.dHp)).sum,
              bonus_eva_percent := (outs'.map (fun o => o.dEva)).sum,
              bonus_crit_chance_percent := (outs'.map (fun o => o.dCrit)).sum,
              spirit := outs'.foldl (fun st o => applySpirit o.spiritName o.affinityMatch st) {} },
      ?_, ?_, ?_, ?_, ?_, ?_⟩
    · simp only [houts']
    · exact ((hperm.map (fun o => o.dAtk)).sum_eq).symm
    · exact ((hperm.map (fun o => o.dDef)).sum_eq).symm
    · exact ((hperm.map (fun o => o.dHp)).sum_eq).symm
    · exact ((hperm.map (fun o => o.dEva)).sum_eq).symm
    · exact ((hperm.map (fun o => o.dCrit)).sum_eq).symm

/-! Fixtures for the C4 counterexample: two heroes whose configurations
are slot permutations of each other, socketing a Wolf and a Kraken spirit
in the first two slots in the two orders. -/

def slotWolf : Blueprint × String × String × String := (bpStick, "Normal", "Water 1", "Wolf T4")

def slotKraken : Blueprint × String × String × String :=
  (bpStick, "Normal", "Water 1", "Kraken T4")

def slotWolfOut : SlotOut :=
  { dAtk := 0, dDef := 0, dHp := 0, dEva := 0, dCrit := 0,
    spiritName := "Wolf", affinityMatch := false }

def slotKrakenOut : SlotOut :=
  { dAtk := 0, dDef := 0, dHp := 0, dEva := 0, dCrit := 0,
    spiritName := "Kraken", affinityMatch := false }

theorem slotOut_wolf : slotOutOf fourNones slotWolf = some slotWolfOut := by
  simp only [slotOutOf, slotWolf, slotOut, qualityBonus_Normal, elementTriple_stick_water1,
    show spiritNameOf "Wolf T4" = some "Wolf" from rfl,
    show spiritTriple bpStick "Wolf T4" = some ((16 : ℚ), 11, 3) from rfl]
  norm_num [bonusItemAllStats_fourNones, bonusItemAtkPercent_fourNones,
    bonusItemDefPercent_fourNones, slotWolfOut, bpStick, min_def,
    show (("None" : String) == "Wolf") = false from rfl]

theorem slotOut_kraken : slotOutOf fourNones slotKraken = some slotKrakenOut := by
  simp only [slotOutOf, slotKraken, slotOut, qualityBonus_Normal, elementTriple_stick_water1,
    show spiritNameOf "Kraken T4" = some "Kraken" from rfl,
    show spiritTriple bpStick "Kraken T4" = some ((16 : ℚ), 11, 3) from rfl]
  norm_num [bonusItemAllStats_fourNones, bonusItemAtkPercent_fourNones,
    bonusItemDefPercent_fourNones, slotKrakenOut, bpStick, min_def,
    show (("None" : String) == "Kraken") = false from rfl]

theorem applySpirit_wolf (st : SpiritState) :
    applySpirit "Wolf" false st = { st with atk_percent := 0.05 } := rfl

theorem applySpirit_kraken (st : SpiritState) :
    applySpirit "Kraken" false st = { st with atk_value := 100.0, atk_percent := 0.1 } := rfl

/-- Gear state after a Wolf slot and then a Kraken slot. -/
def gsWK : GearState :=
  { bonus_atk_value := 0, bonus_def_value := 0, bonus_hp_value := 0,
    bonus_eva_percent := 0, bonus_crit_chance_percent := 0,
    spirit := { atk_value := 100.0, atk_percent := 0.1 } }

/-- Gear state after a Kraken slot and then a Wolf slot: the Wolf
assignment overwrites the Kraken attack percent. -/
def gsKW : GearState :=
  { bonus_atk_value := 0, bonus_def_value := 0, bonus_hp_value := 0,
    bonus_eva_percent := 0, bonus_crit_chance_percent := 0,
    spirit := { atk_value := 100.0, atk_percent := 0.05 } }

theorem gearLoop_2wk : gearLoop fourNones [slotWolf, slotKraken] = some gsWK := by
  simp only [gearLoop, mapOpt, slotOut_wolf, slotOut_kraken]
  norm_num [slotWolfOut, slotKrakenOut, gsWK, applySpirit_wolf, applySpirit_kraken]

/-- Hero socketing Wolf then Kraken. -/
def wolfKrakenHero : Hero :=
  { baseHero with
    hp_seeds := 0,
    spirits_socketed := ["Wolf T4", "Kraken T4", "Armadillo T7", "Armadillo T7",
      "Armadillo T7", "Armadillo T7"] }

/-- The same hero with the first two slots swapped. -/
def krakenWolfHero : Hero :=
  { baseHero with
    hp_seeds := 0,
    spirits_socketed := ["Kraken T4", "Wolf T4", "Armadillo T7", "Armadillo T7",
      "Armadillo T7", "Armadillo T7"] }

theorem gearLoop_wolfKraken :
    gearLoop fourNones (mkSlots wolfKrakenHero sixSticks) = some gsWK := by
  have hm : mkSlots wolfKrakenHero sixSticks =
      [slotWolf, slotKraken, slotNeutral, slotNeutral, slotNeutral, slotNeutral] := rfl
  rw [hm]
  simp only [gearLoop, mapOpt, slotOut_wolf, slotOut_kraken, slotOut_neutral]
  norm_num [slotWolfOut, slotKrakenOut, slotNeutralOut, gsWK, applySpirit_wolf,
    applySpirit_kraken, applySpirit_armadillo]

theorem gearLoop_krakenWolf :
    gearLoop fourNones (mkSlots krakenWolfHero sixSticks) = some gsKW := by
  have hm : mkSlots krakenWolfHero sixSticks =
      [slotKraken, slotWolf, slotNeutral, slotNeutral, slotNeutral, slotNeutral] := rfl
  rw [hm]
  simp only [gearLoop, mapOpt, slotOut_wolf, slotOut_kraken, slotOut_neutral]
  norm_num [slotWolfOut, slotKrakenOut, slotNeutralOut, gsKW, applySpirit_wolf,
    applySpirit_kraken, applySpirit_armadillo]

theorem calc_wolfKraken :
    wolfKrakenHero.calculate_stat_improvements_from_gear_and_skills bpMapFix skMapFix [] []
      = some { wolfKrakenHero with atk := 121, atk_modifier := 0.1 } := by
  unfold Hero.calculate_stat_improvements_from_gear_and_skills
  simp only [show mapOpt (lookupMap bpMapFix) wolfKrakenHero.equipment_equipped = some sixSticks
      from mapOpt_bps_base,
    show mapOpt (lookupMap skMapFix) wolfKrakenHero.skills = some fourNones
      from mapOpt_skills_base,
    gearLoop_wolfKraken,
    show classBonus wolfKrakenHero = some 0 from rfl]
  norm_num [skillTotals, fourNones, skNone, gsWK, Hero.mk.injEq, wolfKrakenHero, baseHero]

theorem calc_krakenWolf :
    krakenWolfHero.calculate_stat_improvements_from_gear_and_skills bpMapFix skMapFix [] []
      = some { krakenWolfHero with atk := 231 / 2, atk_modifier := 0.05 } := by
  unfold Hero.calculate_stat_improvements_from_gear_and_skills
  simp only [show mapOpt (lookupMap bpMapFix) krakenWolfHero.equipment_equipped = some sixSticks
      from mapOpt_bps_base,
    show mapOpt (lookupMap skMapFix) krakenWolfHero.skills = some fourNones
      from mapOpt_skills_base,
    gearLoop_krakenWolf,
    show classBonus krakenWolfHero = some 0 from rfl]
  norm_num [skillTotals, fourNones, skNone, gsKW, Hero.mk.injEq, krakenWolfHero, baseHero]

/-- Counterexample to C4 as stated: two heroes that are slot permutations
of each other (identical item, quality and element arrays; Wolf and Kraken
spirits in the first two slots in the two orders) resolve to different
final attacks, 121 versus 115.5, because each spirit's special effect is
assigned, not accumulated, so the last slot in iteration order wins. -/
theorem spirit_assignment_order_dependent :
    wolfKrakenHero.spirits_socketed.Perm krakenWolfHero.spirits_socketed ∧
    wolfKrakenHero.equipment_equipped = krakenWolfHero.equipment_equipped ∧
    wolfKrakenHero.equipment_quality = krakenWolfHero.equipment_quality ∧
    wolfKrakenHero.elements_socketed = krakenWolfHero.elements_socketed ∧
    (wolfKrakenHero.calculate_stat_improvements_from_gear_and_skills bpMapFix skMapFix [] []).map
        Hero.atk = some 121 ∧
    (krakenWolfHero.calculate_stat_improvements_from_gear_and_skills bpMapFix skMapFix [] []).map
        Hero.atk = some (231 / 2) ∧
    ((121 : ℚ) ≠ 231 / 2) := by
  refine ⟨List.Perm.swap "Kraken T4" "Wolf T4" _, rfl, rfl, rfl, ?_, ?_, by norm_num⟩
  · rw [calc_wolfKraken]; rfl
  · rw [calc_krakenWolf]; rfl

/-- Witness for the amended C4: swapping the Wolf and Kraken slots leaves
the summed gear attack total unchanged (at zero for the zero-stat item). -/
theorem gear_totals_perm_witness :
    (gearLoop fourNones [slotKraken, slotWolf]).map GearState.bonus_atk_value = some 0 := by
  obtain ⟨g', hg', h1, -, -, -, -⟩ :=
    gear_totals_perm fourNones [slotWolf, slotKraken] [slotKraken, slotWolf]
      (List.Perm.swap slotKraken slotWolf []) gsWK gearLoop_2wk
  rw [hg', Option.map_some', h1]
  norm_num [gsWK]

end ShopTitans
